import Mathlib

/-!
Shallow embedding of the session-lifecycle core of the `log.close` VS Code
extension: `EventBuffer` (src/session/eventBuffer.ts), `SessionManager`
(src/session/sessionManager.ts), `LocalDb` (src/storage/localDb.ts) and
`GitSyncer` (src/storage/gitSyncer.ts).

Modelling conventions:
* Instants in time are `Nat` (milliseconds since the Unix epoch), matching
  JavaScript `Date` millisecond precision; each operation that reads the
  clock (`new Date()`) takes the current instant as an explicit argument.
* A JavaScript value that the code sometimes holds as a `Date` object and
  sometimes as its serialized ISO-8601 string is modelled by `DVal`:
  `DVal.date t` is the `Date` object for instant `t`, `DVal.str t` is the
  ISO-8601 string denoting instant `t` (the string determines the instant
  exactly, millisecond included, so it is represented by that instant).
* `generateId()` (Date.now plus a random suffix) is modelled by a fresh-id
  counter threaded through the manager state; ids are opaque strings and
  only compared for equality.
* Callback invocations (the buffer's flush callback, the manager's
  end-of-session observers) are modelled by explicit invocation logs.
* `setTimeout`/`clearTimeout` is modelled by an `Option Nat` deadline: the
  scheduled firing instant, `none` when no timer is pending.
-/

namespace LogClose

/-- A temporal value as JavaScript holds it: either a structured `Date`
object for an instant, or the ISO-8601 string denoting that instant. -/
inductive DVal where
  | date (t : Nat)
  | str (t : Nat)
  deriving DecidableEq, Repr

/-- `JSON.stringify` of a temporal value: a `Date` serializes to its
ISO-8601 string; a string stays itself. -/
def DVal.serialize : DVal → DVal
  | .date t => .str t
  | .str t => .str t

/-- `new Date(x)`: parsing the ISO string (or copying the `Date`) yields
the structured `Date` for the same instant. -/
def DVal.revive : DVal → DVal
  | .date t => .date t
  | .str t => .date t

/-- Event kind tag from src/session/types.ts (`SessionEvent.type`). -/
inductive EventType where
  | terminal
  | file
  | clipboard
  deriving DecidableEq, Repr

/-- `SessionEvent` from src/session/types.ts. `metadata` is an optional
string map (its values are opaque to the core). -/
structure SessionEvent where
  id : String
  timestamp : DVal
  type : EventType
  content : String
  metadata : Option (List (String × String))
  deriving DecidableEq, Repr

/-- Task status enum from src/session/types.ts. -/
inductive TaskStatus where
  | pending
  | in_progress
  | completed
  deriving DecidableEq, Repr

/-- `Task` from src/session/types.ts. -/
structure Task where
  id : String
  description : String
  status : TaskStatus
  createdAt : DVal
  completedAt : Option DVal
  sessionId : String
  deriving DecidableEq, Repr

/-- `Issue` from src/session/types.ts. -/
structure Issue where
  id : String
  description : String
  resolution : Option String
  resolved : Bool
  sessionId : String
  createdAt : DVal
  resolvedAt : Option DVal
  deriving DecidableEq, Repr

/-- `SessionSummary` from src/session/types.ts. -/
structure SessionSummary where
  summary : String
  tasksCompleted : List String
  issuesResolved : List Issue
  keyConversations : List String
  filesModified : List String
  deriving DecidableEq, Repr

/-- `Session` from src/session/types.ts. -/
structure Session where
  id : String
  startTime : DVal
  endTime : Option DVal
  workspacePath : Option String
  events : List SessionEvent
  summary : Option SessionSummary
  tasks : List Task
  issues : List Issue
  isActive : Bool
  deriving DecidableEq, Repr

/-! ## EventBuffer (src/session/eventBuffer.ts)

The flush callback is modelled by an invocation log: each operation
returns, besides the new buffer state, the list of batches the callback
was invoked with during that operation (in invocation order). A callback
is assumed registered via `onFlush`, as the `SessionManager` constructor
always does. -/

/-- `EventBuffer`'s own state: the pending queue and the configured cap. -/
structure EventBuffer where
  buffer : List SessionEvent
  maxSize : Nat
  deriving DecidableEq, Repr

/-- `EventBuffer.flush()`: drains the queue; invokes the callback with the
batch only when it is non-empty; returns the batch, the new state and the
callback-invocation log of this call. -/
def EventBuffer.flush (b : EventBuffer) :
    List SessionEvent × EventBuffer × List (List SessionEvent) :=
  let events := b.buffer
  let b' : EventBuffer := { b with buffer := [] }
  if events.length > 0 then (events, b', [events]) else (events, b', [])

/-- `EventBuffer.push(event)`: appends; when the queue reaches `maxSize`,
synchronously flushes. Returns the new state and the callback log. -/
def EventBuffer.push (b : EventBuffer) (e : SessionEvent) :
    EventBuffer × List (List SessionEvent) :=
  let b' : EventBuffer := { b with buffer := b.buffer ++ [e] }
  if b'.maxSize ≤ b'.buffer.length then
    let (_, b'', log) := b'.flush
    (b'', log)
  else
    (b', [])

/-- Push a list of events one by one, concatenating the callback logs. -/
def EventBuffer.pushAll : EventBuffer → List SessionEvent → EventBuffer × List (List SessionEvent)
  | b, [] => (b, [])
  | b, e :: rest =>
    let (b', log) := b.push e
    let (b'', log') := b'.pushAll rest
    (b'', log ++ log')

/-! ## SessionManager (src/session/sessionManager.ts)

The manager owns an `EventBuffer` of capacity 50 whose registered flush
callback pushes each flushed batch onto `currentSession.events` when a
current session exists (the constructor). The inactivity timer
(`sessionTimeoutTimer`) is the `timeoutDeadline` field; `endedLog` records
the arguments of every `onSessionEnd`-observer invocation in order. -/

/-- The `SessionManager`'s state. `timeoutMs` is
`config.sessionTimeoutMinutes * 60 * 1000`; `workspacePath` is the first
workspace folder's path, both read from the environment. -/
structure ManagerState where
  currentSession : Option Session
  sessions : List Session
  buffer : List SessionEvent
  bufferMax : Nat
  lastActivityTime : Nat
  timeoutDeadline : Option Nat
  endedLog : List Session
  idCounter : Nat
  timeoutMs : Nat
  workspacePath : Option String
  deriving DecidableEq, Repr

/-- The constructor's state: no session, empty history, an empty
`EventBuffer(50)` with the events-attribution callback registered, and no
pending timer. `now` is the construction instant (`lastActivityTime`). -/
def ManagerState.initial (timeoutMs : Nat) (workspacePath : Option String)
    (now : Nat) : ManagerState :=
  { currentSession := none
    sessions := []
    buffer := []
    bufferMax := 50
    lastActivityTime := now
    timeoutDeadline := none
    endedLog := []
    idCounter := 0
    timeoutMs := timeoutMs
    workspacePath := workspacePath }

/-- The registered flush callback: a flushed batch is appended to the
current session's `events` when a current session exists. -/
def ManagerState.applyFlushCallback (s : ManagerState)
    (events : List SessionEvent) : ManagerState :=
  match s.currentSession with
  | some cur => { s with currentSession := some { cur with events := cur.events ++ events } }
  | none => s

/-- `this.eventBuffer.flush()` as seen from the manager: drains the
buffer and runs the registered callback on the batch when non-empty. -/
def ManagerState.flushBuffer (s : ManagerState) : ManagerState :=
  let events := s.buffer
  let s' := { s with buffer := [] }
  if events.length > 0 then s'.applyFlushCallback events else s'

/-- `this.eventBuffer.push(event)`: appends, then flushes when the queue
has reached `bufferMax`. -/
def ManagerState.bufferPush (s : ManagerState) (e : SessionEvent) : ManagerState :=
  let s' := { s with buffer := s.buffer ++ [e] }
  if s'.bufferMax ≤ s'.buffer.length then s'.flushBuffer else s'

/-- `SessionManager.endSession()` at instant `now`: `null` and no effect
when no current session; otherwise flush the buffer, finalize the session
(endTime, isActive := false), append it to history, cancel the inactivity
timer, invoke the end-of-session observers, and clear the current
session. -/
def ManagerState.endSession (s : ManagerState) (now : Nat) :
    Option Session × ManagerState :=
  match s.currentSession with
  | none => (none, s)
  | some cur =>
    let cur' :=
      if s.buffer.length > 0 then { cur with events := cur.events ++ s.buffer }
      else cur
    let ended : Session := { cur' with endTime := some (.date now), isActive := false }
    (some ended,
      { s with
        buffer := []
        currentSession := none
        sessions := s.sessions ++ [ended]
        timeoutDeadline := none
        endedLog := s.endedLog ++ [ended] })

/-- `resetSessionTimeout()`: clear any pending timer and schedule a new
firing at `now + timeoutMs`. -/
def ManagerState.resetSessionTimeout (s : ManagerState) (now : Nat) : ManagerState :=
  { s with timeoutDeadline := some (now + s.timeoutMs) }

/-- `SessionManager.startSession()` at instant `now`: if the current
session is active, end it first; then create a fresh session (new id,
startTime := now, isActive := true), record activity and reset the
inactivity timer. Returns the new session. -/
def ManagerState.startSession (s : ManagerState) (now : Nat) :
    Session × ManagerState :=
  let s₁ :=
    if (match s.currentSession with | some c => c.isActive | none => false) then
      (s.endSession now).2
    else s
  let sess : Session :=
    { id := toString s₁.idCounter
      startTime := .date now
      endTime := none
      workspacePath := s₁.workspacePath
      events := []
      summary := none
      tasks := []
      issues := []
      isActive := true }
  let s₂ := { s₁ with
    currentSession := some sess
    idCounter := s₁.idCounter + 1
    lastActivityTime := now }
  (sess, s₂.resetSessionTimeout now)

/-- `SessionManager.addEvent(event)` at instant `now`: auto-start when no
current session, record activity, reset the inactivity timer, and push
the event into the buffer (the `onEvent` callbacks have no effect on this
state). -/
def ManagerState.addEvent (s : ManagerState) (now : Nat) (e : SessionEvent) :
    ManagerState :=
  let s₁ := if s.currentSession.isNone then (s.startSession now).2 else s
  let s₂ := { s₁ with lastActivityTime := now }
  (s₂.resetSessionTimeout now).bufferPush e

/-- The `setTimeout` callback firing at instant `now`: it only fires when
a timer is pending and `now` is its scheduled deadline; it ends the
session only when the current session is active. -/
def ManagerState.fireTimeout (s : ManagerState) (now : Nat) : ManagerState :=
  match s.timeoutDeadline with
  | none => s
  | some d =>
    if now = d then
      if (match s.currentSession with | some c => c.isActive | none => false) then
        (s.endSession now).2
      else { s with timeoutDeadline := none }
    else s

/-- `SessionManager.addTask(task)` at instant `now`: `null` and no effect
when no current session; otherwise build the task with a fresh id,
`createdAt := now` and the current session's id, and append it. -/
def ManagerState.addTask (s : ManagerState) (now : Nat) (description : String)
    (status : TaskStatus) (completedAt : Option DVal) :
    Option Task × ManagerState :=
  match s.currentSession with
  | none => (none, s)
  | some cur =>
    let newTask : Task :=
      { id := toString s.idCounter
        description := description
        status := status
        createdAt := .date now
        completedAt := completedAt
        sessionId := cur.id }
    (some newTask,
      { s with
        currentSession := some { cur with tasks := cur.tasks ++ [newTask] }
        idCounter := s.idCounter + 1 })

/-- `SessionManager.addIssue(issue)` at instant `now`: `null` and no
effect when no current session; otherwise build the issue with a fresh
id, `createdAt := now` and the current session's id, and append it. -/
def ManagerState.addIssue (s : ManagerState) (now : Nat) (description : String)
    (resolution : Option String) (resolved : Bool) (resolvedAt : Option DVal) :
    Option Issue × ManagerState :=
  match s.currentSession with
  | none => (none, s)
  | some cur =>
    let newIssue : Issue :=
      { id := toString s.idCounter
        description := description
        resolution := resolution
        resolved := resolved
        sessionId := cur.id
        createdAt := .date now
        resolvedAt := resolvedAt }
    (some newIssue,
      { s with
        currentSession := some { cur with issues := cur.issues ++ [newIssue] }
        idCounter := s.idCounter + 1 })

/-- `SessionManager.getTodaySessions()`: filters the history by
`s.startTime >= today`, where `today` is the current instant truncated to
local midnight (passed here explicitly). Comparing a JavaScript `Date`
with `>=` compares instants; a non-`Date` value never satisfies it. -/
def ManagerState.getTodaySessions (s : ManagerState) (todayMidnight : Nat) :
    List Session :=
  s.sessions.filter (fun sess =>
    match sess.startTime with
    | .date t => todayMidnight ≤ t
    | .str _ => false)

/-- Apply a sequence of timestamped `addEvent` calls in order. -/
def ManagerState.applyEvents : ManagerState → List (Nat × SessionEvent) → ManagerState
  | s, [] => s
  | s, p :: rest => (s.addEvent p.1 p.2).applyEvents rest

/-- Number of sessions with `isActive = true` held by the manager (the
current session plus the history). -/
def ManagerState.activeCount (s : ManagerState) : Nat :=
  (match s.currentSession with
   | some c => if c.isActive then 1 else 0
   | none => 0) +
  (s.sessions.filter (fun sess => sess.isActive)).length

/-- The current session's events list (empty when no current session). -/
def ManagerState.currentEvents (s : ManagerState) : List SessionEvent :=
  match s.currentSession with
  | some c => c.events
  | none => []

/-! ## LocalDb (src/storage/localDb.ts)

`save()` writes `JSON.stringify(this.data)` to disk; `load()` parses the
file and maps `reviveSession` over the sessions. Serialization turns every
`Date` anywhere in a session into its ISO string (`JSON.stringify` is
uniform); `reviveSession` rebuilds `Date`s only at the places the source
lists. A reload of the store therefore sends each stored session through
`reviveSession ∘ serializeSession`. -/

/-- `JSON.stringify` restricted to one session: every `Date` anywhere in
it becomes its ISO-8601 string (including those inside
`summary.issuesResolved`); everything else is kept as is. -/
def serializeIssue (i : Issue) : Issue :=
  { i with
    createdAt := i.createdAt.serialize
    resolvedAt := i.resolvedAt.map DVal.serialize }

/-- Serialization of `SessionSummary` under `JSON.stringify`: the nested
issues' temporal fields become strings. -/
def serializeSummary (sum : SessionSummary) : SessionSummary :=
  { sum with issuesResolved := sum.issuesResolved.map serializeIssue }

/-- `JSON.stringify` restricted to one session (see above). -/
def serializeSession (s : Session) : Session :=
  { s with
    startTime := s.startTime.serialize
    endTime := s.endTime.map DVal.serialize
    events := s.events.map (fun e => { e with timestamp := e.timestamp.serialize })
    summary := s.summary.map serializeSummary
    tasks := s.tasks.map (fun t =>
      { t with
        createdAt := t.createdAt.serialize
        completedAt := t.completedAt.map DVal.serialize })
    issues := s.issues.map serializeIssue }

/-- `LocalDb.reviveSession(raw)`: spreads `raw` and rebuilds `Date`s at
`startTime`, `endTime`, each event's `timestamp`, each task's
`createdAt`/`completedAt` and each issue's `createdAt`/`resolvedAt`. The
spread keeps `summary` exactly as parsed: nothing inside it is revived. -/
def reviveSession (raw : Session) : Session :=
  { raw with
    startTime := raw.startTime.revive
    endTime := raw.endTime.map DVal.revive
    events := raw.events.map (fun e => { e with timestamp := e.timestamp.revive })
    tasks := raw.tasks.map (fun t =>
      { t with
        createdAt := t.createdAt.revive
        completedAt := t.completedAt.map DVal.revive })
    issues := raw.issues.map (fun i =>
      { i with
        createdAt := i.createdAt.revive
        resolvedAt := i.resolvedAt.map DVal.revive }) }

/-- `LocalDb`'s in-memory state: the session list of the single stored
document `{ sessions: Session[] }`. -/
structure LocalDb where
  sessions : List Session
  deriving DecidableEq, Repr

/-- `LocalDb.saveSession(session)`: upsert by id (replace when present,
else append), then rewrite the whole document. -/
def LocalDb.saveSession (db : LocalDb) (session : Session) : LocalDb :=
  if (db.sessions.filter (fun s => s.id == session.id)).length > 0 then
    { sessions := db.sessions.map (fun s => if s.id == session.id then session else s) }
  else
    { sessions := db.sessions ++ [session] }

/-- Restarting the store: the document on disk is the serialized form of
the in-memory sessions, and `load()` maps `reviveSession` over what it
parses. -/
def LocalDb.reload (db : LocalDb) : LocalDb :=
  { sessions := db.sessions.map (fun s => reviveSession (serializeSession s)) }

/-! ## GitSyncer (src/storage/gitSyncer.ts)

Each git call's outcome is drawn from an environment `GitEnv`: `.ok`
carries the call's result, `.error` means the call threw. `sync` returns
the boolean the source returns together with the trace of git operations
it attempted, in order; it is a total function — the source catches every
exception, so no call to `sync` raises. -/

/-- One git operation attempted by `sync`. -/
inductive GitAction where
  | status
  | add
  | commit
  | pull
  | push
  | pushUpstream
  deriving DecidableEq, Repr

/-- Outcomes of the git calls `sync` may perform. `statusFiles` is
`status.files.length`, `none` when `status()` threw; a `Bool` field is
`true` when the call succeeded and `false` when it threw. -/
structure GitEnv where
  statusFiles : Option Nat
  addOk : Bool
  commitOk : Bool
  pullOk : Bool
  pushOk : Bool
  pushUpstreamOk : Bool
  deriving DecidableEq, Repr

/-- `GitSyncer.sync()`: `false` when not initialized; `true` with no
commit or push when the working copy is clean; otherwise stage, commit, a
tolerated rebase-pull, then push with a single `-u` retry. Any exception
from status/add/commit is caught by the outer handler and yields
`false`. -/
def GitSyncer.sync (initialized : Bool) (env : GitEnv) :
    Bool × List GitAction :=
  if !initialized then (false, [])
  else
    match env.statusFiles with
    | none => (false, [.status])
    | some n =>
      if n = 0 then (true, [.status])
      else if !env.addOk then (false, [.status, .add])
      else if !env.commitOk then (false, [.status, .add, .commit])
      else
        -- pull --rebase is attempted; a failure is logged and tolerated
        if env.pushOk then (true, [.status, .add, .commit, .pull, .push])
        else if env.pushUpstreamOk then
          (true, [.status, .add, .commit, .pull, .push, .pushUpstream])
        else
          (false, [.status, .add, .commit, .pull, .push, .pushUpstream])

/-- `GitSyncer.forceSync()`: starts `sync()` inside a progress
notification whose result is discarded, and returns `true`
unconditionally. -/
def GitSyncer.forceSync (initialized : Bool) (env : GitEnv) :
    Bool × List GitAction :=
  (true, (GitSyncer.sync initialized env).2)

/-! ## Concrete values and auxiliary predicates used by the claims -/

/-- A session's `startTime` is a `Date` at or after the given local
midnight (the condition `getTodaySessions` actually tests). -/
def startsOnOrAfter (midnight : Nat) (sess : Session) : Prop :=
  match sess.startTime with
  | .date t => midnight ≤ t
  | .str _ => False

/-- A finalized history session starting two days after the epoch
(relative to a local midnight of 0). -/
def futureSession : Session :=
  { id := "s-future"
    startTime := .date 172800000
    endTime := some (.date 172800001)
    workspacePath := none
    events := []
    summary := none
    tasks := []
    issues := []
    isActive := false }

/-- A finalized session whose summary carries a resolved `Issue` with
structured `Date` fields, exactly as the summarizer builds it
(src/ai/summarizer.ts populates `issuesResolved` with `createdAt: new
Date()` and `resolvedAt: new Date()`). -/
def summarySession : Session :=
  { id := "s-sum"
    startTime := .date 1000
    endTime := some (.date 2000)
    workspacePath := none
    events := []
    summary := some
      { summary := "work"
        tasksCompleted := []
        issuesResolved :=
          [{ id := "i1"
             description := "bug"
             resolution := some "fixed"
             resolved := true
             sessionId := "s-sum"
             createdAt := .date 0
             resolvedAt := some (.date 500) }]
        keyConversations := []
        filesModified := [] }
    tasks := []
    issues := []
    isActive := false }

/-- A manager state holding one active current session, as it stands
after a `startSession` (used to instantiate claims about the active
state). -/
def demoActiveSession : Session :=
  { id := "c0"
    startTime := .date 1
    endTime := none
    workspacePath := none
    events := []
    summary := none
    tasks := []
    issues := []
    isActive := true }

/-- See `demoActiveSession`. -/
def demoActiveState : ManagerState :=
  { currentSession := some demoActiveSession
    sessions := []
    buffer := []
    bufferMax := 50
    lastActivityTime := 1
    timeoutDeadline := some 600001
    endedLog := []
    idCounter := 3
    timeoutMs := 600000
    workspacePath := none }

/-! ## Claims -/

/-- One unfolding step of `pushAll`. -/
theorem EventBuffer.pushAll_cons (b : EventBuffer) (e : SessionEvent)
    (rest : List SessionEvent) :
    b.pushAll (e :: rest) =
      (((b.push e).1.pushAll rest).1, (b.push e).2 ++ ((b.push e).1.pushAll rest).2) :=
  rfl

/-- Helper for C4: pushing a non-empty list of events that tops the
queue up to exactly `maxSize` produces a single callback invocation with
the whole queue, leaving the buffer empty. Every intermediate push stays
strictly below the cap, so no earlier flush occurs. -/
theorem pushAll_fill (evs : List SessionEvent) :
    ∀ (buf : List SessionEvent) (m : Nat), m = buf.length + evs.length → evs ≠ [] →
      EventBuffer.pushAll ⟨buf, m⟩ evs = (⟨[], m⟩, [buf ++ evs]) := by
  induction evs with
  | nil => exact fun _ _ _ h => absurd rfl h
  | cons e rest ih =>
    intro buf m hm _
    cases rest with
    | nil =>
      simp only [List.length_cons, List.length_nil] at hm
      have hcap : m ≤ buf.length + 1 := by omega
      have hpush : (⟨buf, m⟩ : EventBuffer).push e = (⟨[], m⟩, [buf ++ [e]]) := by
        simp [EventBuffer.push, EventBuffer.flush, hcap]
      rw [EventBuffer.pushAll_cons, hpush]
      simp [EventBuffer.pushAll]
    | cons e' rest' =>
      simp only [List.length_cons] at hm
      have hnot : ¬ m ≤ buf.length + 1 := by omega
      have hpush : (⟨buf, m⟩ : EventBuffer).push e = (⟨buf ++ [e], m⟩, []) := by
        simp [EventBuffer.push, hnot]
      have hrec := ih (buf ++ [e]) m
        (by simp only [List.length_append, List.length_cons, List.length_nil]; omega)
        (by simp)
      rw [EventBuffer.pushAll_cons, hpush]
      simp [hrec, List.append_assoc]

/-- C4: pushing exactly `maxSize` events (for any `maxSize ≥ 1`) into an
empty `EventBuffer` triggers exactly one flush-callback invocation
containing exactly those events in push order and leaves the buffer
empty; `flush()` on an empty buffer invokes no callback. -/
theorem C4_fill_triggers_single_flush (m : Nat) (evs : List SessionEvent)
    (h1 : 1 ≤ m) (h2 : evs.length = m) :
    EventBuffer.pushAll ⟨[], m⟩ evs = (⟨[], m⟩, [evs]) ∧
    EventBuffer.flush ⟨[], m⟩ = ([], ⟨[], m⟩, []) := by
  refine ⟨?_, by simp [EventBuffer.flush]⟩
  have hne : evs ≠ [] := by
    intro hnil
    rw [hnil] at h2
    simp at h2
    omega
  simpa using pushAll_fill evs [] m (by simp [h2]) hne

/-- Witness for C4 with `maxSize = 2` and two concrete events. -/
theorem C4_fill_triggers_single_flush_witness :
    (1 ≤ 2 ∧
      ([⟨"a", .date 1, .terminal, "ls", none⟩,
        ⟨"b", .date 2, .file, "f.ts", none⟩] : List SessionEvent).length = 2) ∧
    (EventBuffer.pushAll ⟨[], 2⟩
        [⟨"a", .date 1, .terminal, "ls", none⟩, ⟨"b", .date 2, .file, "f.ts", none⟩] =
      (⟨[], 2⟩,
        [[⟨"a", .date 1, .terminal, "ls", none⟩, ⟨"b", .date 2, .file, "f.ts", none⟩]]) ∧
      EventBuffer.flush ⟨[], 2⟩ = ([], ⟨[], 2⟩, [])) :=
  ⟨⟨by decide, by decide⟩,
    C4_fill_triggers_single_flush 2
      [⟨"a", .date 1, .terminal, "ls", none⟩, ⟨"b", .date 2, .file, "f.ts", none⟩]
      (by decide) (by decide)⟩

/-- `bufferPush` only touches the buffer and the current session's
events; every other field of the manager state is unchanged. -/
theorem bufferPush_fields (s : ManagerState) (e : SessionEvent) :
    (s.bufferPush e).sessions = s.sessions ∧
    (s.bufferPush e).timeoutDeadline = s.timeoutDeadline ∧
    (s.bufferPush e).lastActivityTime = s.lastActivityTime ∧
    (s.bufferPush e).timeoutMs = s.timeoutMs ∧
    (s.bufferPush e).idCounter = s.idCounter ∧
    (s.bufferPush e).endedLog = s.endedLog := by
  unfold ManagerState.bufferPush ManagerState.flushBuffer ManagerState.applyFlushCallback
  by_cases hcap : s.bufferMax ≤ s.buffer.length + 1
  · cases hc : s.currentSession <;> simp [hcap, hc]
  · simp [hcap]

/-- `bufferPush` with a current session keeps that session (same id and
activity flag) and conserves the events: afterwards, session events plus
pending buffer equal the prior ones plus the pushed event. -/
theorem bufferPush_current (s : ManagerState) (e : SessionEvent) (c : Session)
    (hc : s.currentSession = some c) :
    ∃ c', (s.bufferPush e).currentSession = some c' ∧
      c'.isActive = c.isActive ∧ c'.id = c.id ∧
      c'.events ++ (s.bufferPush e).buffer = c.events ++ (s.buffer ++ [e]) := by
  unfold ManagerState.bufferPush ManagerState.flushBuffer ManagerState.applyFlushCallback
  by_cases hcap : s.bufferMax ≤ s.buffer.length + 1
  · simp [hcap, hc]
  · simp [hcap, hc]

/-- `addEvent` with no current session: the auto-started session is
pushed into, with a fresh id and a timer scheduled `timeoutMs` after
`now`. -/
theorem addEvent_eq_none (s : ManagerState) (now : Nat) (e : SessionEvent)
    (hc : s.currentSession = none) :
    s.addEvent now e = ManagerState.bufferPush
      { s with
        currentSession := some
          { id := toString s.idCounter
            startTime := .date now
            endTime := none
            workspacePath := s.workspacePath
            events := []
            summary := none
            tasks := []
            issues := []
            isActive := true }
        idCounter := s.idCounter + 1
        lastActivityTime := now
        timeoutDeadline := some (now + s.timeoutMs) } e := by
  simp [ManagerState.addEvent, ManagerState.startSession,
    ManagerState.resetSessionTimeout, hc]

/-- `addEvent` with a current session: record activity, reset the timer,
push into the buffer. -/
theorem addEvent_eq_some (s : ManagerState) (now : Nat) (e : SessionEvent)
    (c : Session) (hc : s.currentSession = some c) :
    s.addEvent now e = ManagerState.bufferPush
      { s with lastActivityTime := now, timeoutDeadline := some (now + s.timeoutMs) } e := by
  simp [ManagerState.addEvent, ManagerState.resetSessionTimeout, hc]

/-- `addEvent` never modifies the history list. -/
theorem addEvent_sessions (s : ManagerState) (now : Nat) (e : SessionEvent) :
    (s.addEvent now e).sessions = s.sessions := by
  cases hc : s.currentSession with
  | none => rw [addEvent_eq_none s now e hc]; exact (bufferPush_fields _ _).1
  | some c => rw [addEvent_eq_some s now e c hc]; exact (bufferPush_fields _ _).1

/-- `addEvent` records `now` as the last-activity time. -/
theorem addEvent_lastActivity (s : ManagerState) (now : Nat) (e : SessionEvent) :
    (s.addEvent now e).lastActivityTime = now := by
  cases hc : s.currentSession with
  | none => rw [addEvent_eq_none s now e hc]; exact (bufferPush_fields _ _).2.2.1
  | some c => rw [addEvent_eq_some s now e c hc]; exact (bufferPush_fields _ _).2.2.1

/-- `addEvent` resets the inactivity timer to fire `timeoutMs` after
`now`. -/
theorem addEvent_deadline (s : ManagerState) (now : Nat) (e : SessionEvent) :
    (s.addEvent now e).timeoutDeadline = some (now + s.timeoutMs) := by
  cases hc : s.currentSession with
  | none => rw [addEvent_eq_none s now e hc]; exact (bufferPush_fields _ _).2.1
  | some c => rw [addEvent_eq_some s now e c hc]; exact (bufferPush_fields _ _).2.1

/-- `addEvent` step with an existing current session: same session (id
and activity flag), history unchanged, events conserved. -/
theorem addEvent_step_some (s : ManagerState) (now : Nat) (e : SessionEvent)
    (c : Session) (hc : s.currentSession = some c) :
    ∃ c', (s.addEvent now e).currentSession = some c' ∧
      c'.isActive = c.isActive ∧ c'.id = c.id ∧
      (s.addEvent now e).sessions = s.sessions ∧
      c'.events ++ (s.addEvent now e).buffer = c.events ++ s.buffer ++ [e] := by
  rw [addEvent_eq_some s now e c hc]
  obtain ⟨c', h1, h2, h3, h4⟩ :=
    bufferPush_current
      { s with lastActivityTime := now, timeoutDeadline := some (now + s.timeoutMs) } e c hc
  exact ⟨c', h1, h2, h3, (bufferPush_fields _ _).1, by rw [h4, List.append_assoc]⟩

/-- `addEvent` step with no current session: a fresh active session is
auto-started and receives the push; history unchanged. -/
theorem addEvent_step_none (s : ManagerState) (now : Nat) (e : SessionEvent)
    (hc : s.currentSession = none) :
    ∃ c', (s.addEvent now e).currentSession = some c' ∧
      c'.isActive = true ∧
      (s.addEvent now e).sessions = s.sessions ∧
      c'.events ++ (s.addEvent now e).buffer = s.buffer ++ [e] := by
  rw [addEvent_eq_none s now e hc]
  obtain ⟨c', h1, h2, h3, h4⟩ :=
    bufferPush_current
      { s with
        currentSession := some
          { id := toString s.idCounter
            startTime := .date now
            endTime := none
            workspacePath := s.workspacePath
            events := []
            summary := none
            tasks := []
            issues := []
            isActive := true }
        idCounter := s.idCounter + 1
        lastActivityTime := now
        timeoutDeadline := some (now + s.timeoutMs) } e
      { id := toString s.idCounter
        startTime := .date now
        endTime := none
        workspacePath := s.workspacePath
        events := []
        summary := none
        tasks := []
        issues := []
        isActive := true } rfl
  exact ⟨c', h1, h2, (bufferPush_fields _ _).1, by simpa using h4⟩

/-- `flushBuffer` with a current session empties the buffer into that
session's events and changes nothing else. -/
theorem flushBuffer_current (s : ManagerState) (c : Session)
    (hc : s.currentSession = some c) :
    ∃ c', s.flushBuffer.currentSession = some c' ∧
      c'.isActive = c.isActive ∧ c'.id = c.id ∧
      c'.events = c.events ++ s.buffer ∧
      s.flushBuffer.buffer = [] ∧
      s.flushBuffer.sessions = s.sessions := by
  unfold ManagerState.flushBuffer ManagerState.applyFlushCallback
  by_cases hb : s.buffer.length > 0
  · simp [hb, hc]
  · have hnil : s.buffer = [] := List.length_eq_zero.mp (by omega)
    simp [hb, hc, hnil]

/-- Running a whole sequence of `addEvent` calls from a state with a
current session: the same session stays current, the history is
untouched, and session events plus pending buffer accumulate exactly the
pushed events in order. -/
theorem applyEvents_track (evs : List (Nat × SessionEvent)) :
    ∀ (s : ManagerState) (c : Session), s.currentSession = some c →
      ∃ c', (s.applyEvents evs).currentSession = some c' ∧
        c'.isActive = c.isActive ∧ c'.id = c.id ∧
        (s.applyEvents evs).sessions = s.sessions ∧
        c'.events ++ (s.applyEvents evs).buffer =
          c.events ++ s.buffer ++ evs.map Prod.snd := by
  induction evs with
  | nil => exact fun s c hc => ⟨c, hc, rfl, rfl, rfl, by simp [ManagerState.applyEvents]⟩
  | cons p rest ih =>
    intro s c hc
    obtain ⟨c1, hc1, hact1, hid1, hsess1, hev1⟩ := addEvent_step_some s p.1 p.2 c hc
    obtain ⟨c', hc', hact', hid', hsess', hev'⟩ := ih (s.addEvent p.1 p.2) c1 hc1
    simp only [ManagerState.applyEvents]
    refine ⟨c', hc', hact'.trans hact1, hid'.trans hid1, hsess'.trans hsess1, ?_⟩
    rw [hev', hev1]
    simp [List.append_assoc]

/-- C10: calling `endSession` when no current session exists returns
`null` and is a complete no-op — the returned state is the input state,
so the history, the event buffer and the observer-invocation log are all
unchanged. -/
theorem C10_endSession_noop (s : ManagerState) (now : Nat)
    (h : s.currentSession = none) :
    s.endSession now = (none, s) := by
  simp [ManagerState.endSession, h]

/-- Witness for C10 at the freshly constructed manager. -/
theorem C10_endSession_noop_witness :
    (ManagerState.initial 600000 none 0).currentSession = none ∧
    (ManagerState.initial 600000 none 0).endSession 5 =
      (none, ManagerState.initial 600000 none 0) :=
  ⟨rfl, C10_endSession_noop (ManagerState.initial 600000 none 0) 5 rfl⟩

/-- C6: `addTask` and `addIssue` with no active session return `null`,
never throw (the model is a total function), and leave the whole manager
state — in particular every stored session — unmodified. -/
theorem C6_addTask_addIssue_null (s : ManagerState) (now now' : Nat)
    (description description' : String) (status : TaskStatus)
    (completedAt : Option DVal) (resolution : Option String)
    (resolved : Bool) (resolvedAt : Option DVal)
    (h : s.currentSession = none) :
    s.addTask now description status completedAt = (none, s) ∧
    s.addIssue now' description' resolution resolved resolvedAt = (none, s) := by
  simp [ManagerState.addTask, ManagerState.addIssue, h]

/-- Witness for C6 at the freshly constructed manager. -/
theorem C6_addTask_addIssue_null_witness :
    (ManagerState.initial 600000 none 0).currentSession = none ∧
    ((ManagerState.initial 600000 none 0).addTask 1 "t" .pending none =
        (none, ManagerState.initial 600000 none 0) ∧
      (ManagerState.initial 600000 none 0).addIssue 2 "i" none false none =
        (none, ManagerState.initial 600000 none 0)) :=
  ⟨rfl, C6_addTask_addIssue_null (ManagerState.initial 600000 none 0)
    1 2 "t" "i" .pending none none false none rfl⟩

/-- C5: in every `sync()` execution that reaches a failing push (syncer
initialized, dirty working copy, add and commit succeed, push throws),
the push is retried exactly once with upstream tracking (`push -u`), and
when that retry also fails `sync()` returns `false`; `sync` is a total
function, so no exception reaches the caller. -/
theorem C5_sync_push_retried_once (env : GitEnv) (n : Nat)
    (hs : env.statusFiles = some n) (hn : n ≠ 0)
    (ha : env.addOk = true) (hc : env.commitOk = true)
    (hp : env.pushOk = false) :
    (GitSyncer.sync true env).2.count GitAction.pushUpstream = 1 ∧
    (env.pushUpstreamOk = false → (GitSyncer.sync true env).1 = false) := by
  cases hu : env.pushUpstreamOk <;>
    simp [GitSyncer.sync, hs, hn, ha, hc, hp, hu, List.count_cons]

/-- Witness for C5: a configured environment whose push throws twice. -/
theorem C5_sync_push_retried_once_witness :
    (GitEnv.mk (some 1) true true true false false).statusFiles = some 1 ∧
    ((GitSyncer.sync true (GitEnv.mk (some 1) true true true false false)).2.count
        GitAction.pushUpstream = 1 ∧
      ((GitEnv.mk (some 1) true true true false false).pushUpstreamOk = false →
        (GitSyncer.sync true (GitEnv.mk (some 1) true true true false false)).1 = false)) :=
  ⟨rfl, C5_sync_push_retried_once (GitEnv.mk (some 1) true true true false false)
    1 rfl (by decide) rfl rfl rfl⟩

/-- C8 counterexample: when both push attempts fail, the `sync()` that
`forceSync()` starts returns `false`, yet `forceSync()` returns `true` —
so `forceSync` does not return the boolean of the `sync` it performs. -/
theorem C8_counterexample :
    (GitSyncer.sync true (GitEnv.mk (some 1) true true true false false)).1 = false ∧
    (GitSyncer.forceSync true (GitEnv.mk (some 1) true true true false false)).1 = true := by
  decide

/-- C8 amended: `forceSync()` performs the same git operations as
`sync()` (only wrapped in a progress notification), but its boolean
result is always `true`, independent of the result of that `sync`. -/
theorem C8_forceSync_amended (initialized : Bool) (env : GitEnv) :
    (GitSyncer.forceSync initialized env).1 = true ∧
    (GitSyncer.forceSync initialized env).2 = (GitSyncer.sync initialized env).2 :=
  ⟨rfl, rfl⟩

/-- C9 counterexample: with local midnight at instant 0, a history
session starting at instant 172800000 — outside [0, 86400000), the
current local calendar day — is nevertheless returned by
`getTodaySessions`, so the query does not return only sessions of the
current day. -/
theorem C9_counterexample :
    ManagerState.getTodaySessions
        { ManagerState.initial 600000 none 0 with sessions := [futureSession] } 0 =
      [futureSession] ∧
    futureSession.startTime = DVal.date 172800000 ∧ ¬(172800000 < 0 + 86400000) := by
  decide

/-- C9 amended: the today-sessions query returns exactly those history
sessions whose `startTime` is at or after the current local day's
midnight — only the lower bound of the day is checked, sessions starting
after the end of the day are returned as well. -/
theorem C9_amended_lower_bound_only (s : ManagerState) (todayMidnight : Nat)
    (sess : Session) :
    sess ∈ s.getTodaySessions todayMidnight ↔
      sess ∈ s.sessions ∧ startsOnOrAfter todayMidnight sess := by
  simp only [ManagerState.getTodaySessions, List.mem_filter, startsOnOrAfter]
  cases h : sess.startTime <;> simp [h]

/-- C2: the save/reload round-trip fails on a session whose summary
contains an `Issue`: `reviveSession` spreads the parsed object and never
rehydrates `summary.issuesResolved`, so that issue's `createdAt` comes
back as the serialized ISO string (`DVal.str 0`) instead of the `Date`
(`DVal.date 0`) it was saved with — the reloaded session is not
deep-equal to the saved one. -/
theorem C2_roundtrip_fails_on_summary :
    (LocalDb.saveSession ⟨[]⟩ summarySession).reload.sessions ≠ [summarySession] ∧
    ((LocalDb.saveSession ⟨[]⟩ summarySession).reload.sessions.map
        (fun s => s.summary.map (fun t => t.issuesResolved.map Issue.createdAt))) =
      [some [DVal.str 0]] := by
  decide

/-- C3: `startSession` while a session is active ends the prior session
first — it gains `endTime = now` and `isActive = false` and is appended
to the history — and only then is the new current session created, with
a freshly generated id, `startTime = now`, no events and
`isActive = true`. The prior session's end instant and the new session's
start instant are both `now`, so the sessions do not overlap. -/
theorem C3_start_ends_prior_first (s : ManagerState) (now : Nat) (cur : Session)
    (hc : s.currentSession = some cur) (ha : cur.isActive = true) :
    ∃ ended : Session,
      (s.startSession now).2.sessions = s.sessions ++ [ended] ∧
      ended.id = cur.id ∧
      ended.isActive = false ∧
      ended.endTime = some (DVal.date now) ∧
      (s.startSession now).2.currentSession = some (s.startSession now).1 ∧
      (s.startSession now).1.isActive = true ∧
      (s.startSession now).1.startTime = DVal.date now ∧
      (s.startSession now).1.events = [] ∧
      (s.startSession now).1.id = toString s.idCounter ∧
      (s.startSession now).2.idCounter = s.idCounter + 1 := by
  by_cases hb : s.buffer.length > 0
  · refine
      ⟨{ cur with
          events := cur.events ++ s.buffer
          endTime := some (DVal.date now)
          isActive := false },
        ?_, ?_, ?_, ?_, ?_, ?_, ?_, ?_, ?_, ?_⟩ <;>
      simp [ManagerState.startSession, ManagerState.endSession,
        ManagerState.resetSessionTimeout, hc, ha, hb]
  · refine
      ⟨{ cur with
          endTime := some (DVal.date now)
          isActive := false },
        ?_, ?_, ?_, ?_, ?_, ?_, ?_, ?_, ?_, ?_⟩ <;>
      simp [ManagerState.startSession, ManagerState.endSession,
        ManagerState.resetSessionTimeout, hc, ha, hb]

/-- Witness for C3 at a concrete active state. -/
theorem C3_start_ends_prior_first_witness :
    (demoActiveState.currentSession = some demoActiveSession ∧
      demoActiveSession.isActive = true) ∧
    (∃ ended : Session,
      (demoActiveState.startSession 7).2.sessions = demoActiveState.sessions ++ [ended] ∧
      ended.id = demoActiveSession.id ∧
      ended.isActive = false ∧
      ended.endTime = some (DVal.date 7) ∧
      (demoActiveState.startSession 7).2.currentSession =
        some (demoActiveState.startSession 7).1 ∧
      (demoActiveState.startSession 7).1.isActive = true ∧
      (demoActiveState.startSession 7).1.startTime = DVal.date 7 ∧
      (demoActiveState.startSession 7).1.events = [] ∧
      (demoActiveState.startSession 7).1.id = toString demoActiveState.idCounter ∧
      (demoActiveState.startSession 7).2.idCounter = demoActiveState.idCounter + 1) :=
  ⟨⟨rfl, rfl⟩, C3_start_ends_prior_first demoActiveState 7 demoActiveSession rfl rfl⟩

/-- C7: with `sessionTimeoutMinutes = 10` (`timeoutMs = 600000`), an
activity call at instant `t` records `t` as the last-activity time and
schedules the inactivity timer for `t + 600000`; if no further activity
happens, the timer fires at that deadline and autonomously ends the
session, which is appended to history with `endTime` equal to the
last-activity time plus 10 minutes; the timer is cancelled by the end.
That the timer is reset on every activity call is the deadline equation
itself, which holds for the addEvent call at `t` regardless of any
previously scheduled deadline. -/
theorem C7_inactivity_timeout (s : ManagerState) (t : Nat) (e : SessionEvent)
    (htm : s.timeoutMs = 600000)
    (hact : ∀ c, s.currentSession = some c → c.isActive = true) :
    (s.addEvent t e).lastActivityTime = t ∧
    (s.addEvent t e).timeoutDeadline = some (t + 600000) ∧
    ((s.addEvent t e).fireTimeout (t + 600000)).currentSession = none ∧
    ((s.addEvent t e).fireTimeout (t + 600000)).timeoutDeadline = none ∧
    ∃ ended,
      ((s.addEvent t e).fireTimeout (t + 600000)).sessions =
        (s.addEvent t e).sessions ++ [ended] ∧
      ended.endTime = some (DVal.date ((s.addEvent t e).lastActivityTime + 600000)) := by
  have hla := addEvent_lastActivity s t e
  have hdl := addEvent_deadline s t e
  rw [htm] at hdl
  have hcur : ∃ c', (s.addEvent t e).currentSession = some c' ∧ c'.isActive = true := by
    cases hc : s.currentSession with
    | none =>
      obtain ⟨c', h1, h2, _, _⟩ := addEvent_step_none s t e hc
      exact ⟨c', h1, h2⟩
    | some c =>
      obtain ⟨c', h1, h2, _, _, _⟩ := addEvent_step_some s t e c hc
      exact ⟨c', h1, h2.trans (hact c hc)⟩
  obtain ⟨c', hc', hact'⟩ := hcur
  refine ⟨hla, hdl, ?_, ?_, ?_⟩ <;>
    simp [ManagerState.fireTimeout, hdl, hc', hact', ManagerState.endSession, hla]

/-- Witness for C7 at the freshly constructed manager with the default
10-minute timeout, activity at instant 42. -/
theorem C7_inactivity_timeout_witness :
    ((ManagerState.initial 600000 none 0).timeoutMs = 600000 ∧
      (∀ c, (ManagerState.initial 600000 none 0).currentSession = some c →
        c.isActive = true)) ∧
    (((ManagerState.initial 600000 none 0).addEvent 42
        ⟨"w", .date 42, .clipboard, "x", none⟩).lastActivityTime = 42 ∧
      ((ManagerState.initial 600000 none 0).addEvent 42
        ⟨"w", .date 42, .clipboard, "x", none⟩).timeoutDeadline = some (42 + 600000) ∧
      (((ManagerState.initial 600000 none 0).addEvent 42
        ⟨"w", .date 42, .clipboard, "x", none⟩).fireTimeout (42 + 600000)).currentSession = none ∧
      (((ManagerState.initial 600000 none 0).addEvent 42
        ⟨"w", .date 42, .clipboard, "x", none⟩).fireTimeout (42 + 600000)).timeoutDeadline = none ∧
      ∃ ended,
        (((ManagerState.initial 600000 none 0).addEvent 42
          ⟨"w", .date 42, .clipboard, "x", none⟩).fireTimeout (42 + 600000)).sessions =
          ((ManagerState.initial 600000 none 0).addEvent 42
            ⟨"w", .date 42, .clipboard, "x", none⟩).sessions ++ [ended] ∧
        ended.endTime = some (DVal.date
          (((ManagerState.initial 600000 none 0).addEvent 42
            ⟨"w", .date 42, .clipboard, "x", none⟩).lastActivityTime + 600000))) :=
  ⟨⟨rfl, fun c h => by simp [ManagerState.initial] at h⟩,
    C7_inactivity_timeout (ManagerState.initial 600000 none 0) 42
      ⟨"w", .date 42, .clipboard, "x", none⟩ rfl
      (fun c h => by simp [ManagerState.initial] at h)⟩

/-- C1: starting from a fresh manager, for every sequence of `addEvent`
calls with no intervening `endSession`, at most one session with
`isActive = true` exists (before and after flushing), and after the next
buffer flush the current session's events list is exactly the pushed
events, in push order — every pushed event is attributed to that one
session. -/
theorem C1_single_active_flush_attribution (timeoutMs : Nat) (wp : Option String)
    (t0 : Nat) (evs : List (Nat × SessionEvent)) :
    ((ManagerState.initial timeoutMs wp t0).applyEvents evs).activeCount ≤ 1 ∧
    (((ManagerState.initial timeoutMs wp t0).applyEvents evs).flushBuffer).activeCount ≤ 1 ∧
    (((ManagerState.initial timeoutMs wp t0).applyEvents evs).flushBuffer).currentEvents =
      evs.map Prod.snd := by
  cases evs with
  | nil =>
    simp [ManagerState.applyEvents, ManagerState.initial, ManagerState.flushBuffer,
      ManagerState.activeCount, ManagerState.currentEvents]
  | cons p rest =>
    have hinit : (ManagerState.initial timeoutMs wp t0).currentSession = none := rfl
    obtain ⟨c1, hc1, hact1, hsess1, hev1⟩ :=
      addEvent_step_none (ManagerState.initial timeoutMs wp t0) p.1 p.2 hinit
    obtain ⟨c', hc', hact', hid', hsess', hev'⟩ :=
      applyEvents_track rest ((ManagerState.initial timeoutMs wp t0).addEvent p.1 p.2) c1 hc1
    obtain ⟨c2, hc2, hact2, hid2, hev2, hbuf2, hsess2⟩ := flushBuffer_current _ c' hc'
    have hactive : c'.isActive = true := hact'.trans hact1
    have hsessN :
        (((ManagerState.initial timeoutMs wp t0).addEvent p.1 p.2).applyEvents rest).sessions
          = [] := by
      rw [hsess', hsess1]; rfl
    simp only [ManagerState.applyEvents]
    refine ⟨?_, ?_, ?_⟩
    · simp [ManagerState.activeCount, hc', hactive, hsessN]
    · simp [ManagerState.activeCount, hc2, hact2.trans hactive, hsess2, hsessN]
    · simp only [ManagerState.currentEvents, hc2]
      rw [hev2, hev', hev1]
      simp [ManagerState.initial]

end LogClose
